import Mathlib

/-!
Shallow embedding of the SimKube manifest-packaging scripts
(src/k8s/main.py, src/k8s/sk_tracer.py, src/k8s/sk_ctrl.py).

The scripts are one-shot batch programs: they read a command-line flag
(--kustomize), environment variables (BUILD_DIR, APP_VERSION), and
per-application image files from the build directory, then emit manifest
artifacts.  We model the environment and the filesystem as explicit maps,
Python exceptions as an Except monad, and the program's output side
effects as an explicit list of filesystem operations.
-/

namespace SimKube

/-- Outcome of opening and reading one file, modelling Python's
open(path) followed by f.read(): either the full contents, a
FileNotFoundError, or some other OSError (for example permission denied)
carrying its message. -/
inductive FileResult where
  | found (contents : String)
  | fileNotFound
  | ioFailure (msg : String)
deriving DecidableEq, Repr

/-- The filesystem visible to the run: path to read-outcome. -/
def FS : Type := String → FileResult

/-- The process environment: variable name to optional value, as in
Python's os.getenv. -/
def Env : Type := String → Option String

/-- How Python renders an Optional[str] inside an f-string: None prints
as the four characters None. -/
def pyStrOfOpt : Option String → String
  | some s => s
  | none => "None"

/-- Python exceptions that the scripts can let escape: a TypeError from
adding None + str (when BUILD_DIR is unset in dev mode), or an OSError
other than file-not-found, surfaced verbatim. -/
inductive PyErr where
  | typeError
  | osFailure (msg : String)
deriving DecidableEq, Repr

/-- An application spec as used by src/k8s/main.py: the only field the
packaging logic reads is the id (app.id()). -/
structure App where
  id : String
deriving DecidableEq, Repr

/-- QUAY_IO_PREFIX from src/k8s/main.py line 37 (renamed for Lean). -/
def QUAY_IO_REG : String := "quay.io/appliedcomputing"

/-- DAG_FILENAME from src/k8s/main.py line 11. -/
def DAG_FILENAME : String := "dag.mermaid"

/-- DIFF_FILENAME from src/k8s/main.py line 12. -/
def DIFF_FILENAME : String := "k8s.df"

/-- The dev-mode per-application image read, src/k8s/main.py lines 55-59:
open(build_dir + f"/\x7bapp.id()\x7d-image") and read; a FileNotFoundError
is caught and replaced by the literal "PLACEHOLDER"; any other OSError
propagates.  build_dir is Optional because main passes os.getenv
("BUILD_DIR") straight through; None + str raises TypeError. -/
def readImageFile (bd : Option String) (appId : String) (fs : FS) :
    Except PyErr String :=
  match bd with
  | none => Except.error PyErr.typeError
  | some b =>
    match fs (b ++ "/" ++ appId ++ "-image") with
    | FileResult.found c => Except.ok c
    | FileResult.fileNotFound => Except.ok "PLACEHOLDER"
    | FileResult.ioFailure m => Except.error (PyErr.osFailure m)

/-- The dev-mode loop of get_images, src/k8s/main.py lines 53-62:
resolve each app in order, appending to the list; the first escaping
exception aborts the whole call. -/
def devImages (bd : Option String) (fs : FS) :
    List App → Except PyErr (List String)
  | [] => Except.ok []
  | app :: rest =>
    match readImageFile bd app.id fs with
    | Except.error e => Except.error e
    | Except.ok image =>
      match devImages bd fs rest with
      | Except.error e => Except.error e
      | Except.ok images => Except.ok (image :: images)

/-- The kustomize-mode image reference for one app, src/k8s/main.py
line 51: f-string of QUAY_IO_PREFIX, the app id and os.getenv
("APP_VERSION") (rendered as None when unset). -/
def kustomizeImage (env : Env) (app : App) : String :=
  QUAY_IO_REG ++ "/" ++ app.id ++ ":v" ++ pyStrOfOpt (env "APP_VERSION")

/-- get_images from src/k8s/main.py lines 49-62. -/
def get_images (to_build : List App) (kustomize : Bool) (bd : Option String)
    (env : Env) (fs : FS) : Except PyErr (List String) :=
  if kustomize then
    Except.ok (to_build.map (kustomizeImage env))
  else
    devImages bd fs to_build

/-- The per-application image resolution implied by get_images: the
image that ends up at an app's position of the returned list. -/
def resolveOne (kustomize : Bool) (bd : Option String) (env : Env)
    (fs : FS) (app : App) : Except PyErr String :=
  if kustomize then
    Except.ok (kustomizeImage env app)
  else
    readImageFile bd app.id fs

/-- Container security capability, from fireconfig.types.Capability; the
scripts only ever use Capability.DEBUG. -/
inductive Capability where
  | debug
deriving DecidableEq, Repr

/-- A built container, reduced to the fields the scripts set that the
claims are about: name, image, and the security capabilities attached
via with_security_context. -/
structure Container where
  name : String
  image : String
  securityCapabilities : List Capability
deriving DecidableEq, Repr

/-- The container built by SkTracer.__init__, src/k8s/sk_tracer.py lines
23-40: the DEBUG capability is attached only when the debug argument is
true (lines 39-40). -/
def skTracerContainer (image : String) (debug : Bool) : Container :=
  { name := "sk-tracer", image := image,
    securityCapabilities := if debug then [Capability.debug] else [] }

/-- The container built by SKController.__init__, src/k8s/sk_ctrl.py
lines 27-36: with_security_context(Capability.DEBUG) is applied
unconditionally, with no mode or debug input. -/
def skControllerContainer (image : String) : Container :=
  { name := "sk-ctrl", image := image,
    securityCapabilities := [Capability.debug] }

/-- The containers built in one packaging run: main.py instantiates the
tracer and the controller apps with debug = not kustomize; the tracer
container honours that flag (sk_tracer.py lines 39-40) while the
controller container of src/k8s/sk_ctrl.py attaches the capability
unconditionally. -/
def builtContainers (kustomize : Bool) (tracerImage ctrlImage : String) :
    List Container :=
  [skTracerContainer tracerImage (!kustomize), skControllerContainer ctrlImage]

/-- One output side effect of the run on the filesystem: os.makedirs,
open(..., "w") + write, or os.rename. -/
inductive FsOp where
  | mkdirP (path : String)
  | writeFile (path : String) (contents : String)
  | renameFile (fromPath toPath : String)
deriving DecidableEq, Repr

/-- KUSTOMIZATION_YML_BASE from src/k8s/main.py lines 14-19. -/
def KUSTOMIZATION_YML_BASE : String :=
  "---\napiVersion: kustomize.config.k8s.io/v1beta1\nkind: Kustomization\nresources:\n  - sk-namespace.yml\n"

/-- KUSTOMIZATION_YML_PROD from src/k8s/main.py lines 20-27. -/
def KUSTOMIZATION_YML_PROD : String :=
  "---\napiVersion: kustomize.config.k8s.io/v1beta1\nkind: Kustomization\nresources:\n  - ../base\n  - sk-tracer-rbac.yml\n  - sk-tracer.yml\n"

/-- KUSTOMIZATION_YML_SIM from src/k8s/main.py lines 28-35. -/
def KUSTOMIZATION_YML_SIM : String :=
  "---\napiVersion: kustomize.config.k8s.io/v1beta1\nkind: Kustomization\nresources:\n  - ../base\n  - simkube.io_simulations.yml\n  - sk-ctrl.yml\n"

/-- write_kustomize_files from src/k8s/main.py lines 65-86, as the
ordered list of filesystem operations it performs. -/
def write_kustomize_files (build_dir : String) : List FsOp :=
  [ FsOp.mkdirP (build_dir ++ "/base"),
    FsOp.mkdirP (build_dir ++ "/prod"),
    FsOp.mkdirP (build_dir ++ "/sim"),
    FsOp.writeFile (build_dir ++ "/base/kustomization.yml") KUSTOMIZATION_YML_BASE,
    FsOp.writeFile (build_dir ++ "/prod/kustomization.yml") KUSTOMIZATION_YML_PROD,
    FsOp.writeFile (build_dir ++ "/sim/kustomization.yml") KUSTOMIZATION_YML_SIM,
    FsOp.renameFile (build_dir ++ "/0000-global.k8s.yaml") (build_dir ++ "/base/sk-namespace.yml"),
    FsOp.renameFile (build_dir ++ "/0001-sk-tracer.k8s.yaml") (build_dir ++ "/prod/sk-tracer.yml"),
    FsOp.renameFile (build_dir ++ "/sk-tracer-rbac.yml") (build_dir ++ "/prod/sk-tracer-rbac.yml"),
    FsOp.renameFile (build_dir ++ "/0002-sk-ctrl.k8s.yaml") (build_dir ++ "/sim/sk-ctrl.yml"),
    FsOp.renameFile (build_dir ++ "/simkube.io_simulations.yml") (build_dir ++ "/sim/simkube.io_simulations.yml") ]

/-- The fixed application registry of src/k8s/main.py line 99:
apps = [SkTracer, SkCtrl].  AppPackage ids are "sk-tracer" and
"sk-ctrl" (sk_ctrl.py lines 47-49; matched by the tracer's emitted
manifest names in lines 82-86 of main.py). -/
def registry : List App := [App.mk "sk-tracer", App.mk "sk-ctrl"]

/-- The registry-to-library handoff of main, src/k8s/main.py lines
99-103: resolve the images and pair each app with its image
positionally (zip(apps, images)); no validation of the ids happens
anywhere on this path. -/
def registryHandoff (apps : List App) (kustomize : Bool) (bd : Option String)
    (env : Env) (fs : FS) : Except PyErr (List (App × String)) :=
  (get_images apps kustomize bd env fs).map (fun images => apps.zip images)

/-- The type of the external fire.compile collaborator as main uses it:
from the app/image pairs, the debug flag and the optional dag path to
the (graph, diff) pair of rendered strings.  It is external to the
repository and left abstract. -/
def CompileFn : Type :=
  List (App × String) → Bool → Option String → String × String

/-- main from src/k8s/main.py lines 89-114, as a function from the
kustomize flag, environment and filesystem to the list of output
filesystem operations (or the escaping Python exception).  The
os.environ["KUSTOMIZE"] = "1" write on line 93 only influences the
node-selector branch inside the app packages and is not an output
artifact, so it is not recorded as an FsOp. -/
def main_run (fireCompile : CompileFn) (kustomize : Bool) (env : Env)
    (fs : FS) : Except PyErr (List FsOp) := do
  let debug := !kustomize
  let build_dir := pyStrOfOpt (env "BUILD_DIR")
  let dag_path : Option String :=
    if kustomize then none else some (build_dir ++ "/" ++ DAG_FILENAME)
  let diff_path := build_dir ++ "/" ++ DIFF_FILENAME
  let images ← get_images registry kustomize (env "BUILD_DIR") env fs
  let gd := fireCompile (registry.zip images) debug dag_path
  if kustomize then
    pure (write_kustomize_files build_dir)
  else
    pure [ FsOp.writeFile (build_dir ++ "/" ++ DAG_FILENAME) gd.fst,
           FsOp.writeFile diff_path gd.snd ]

/-- Paths of directories created by a list of output operations. -/
def dirsCreated (ops : List FsOp) : List String :=
  ops.filterMap (fun op =>
    match op with
    | FsOp.mkdirP p => some p
    | _ => none)

/-- Paths of files written (open + write) by a list of output
operations. -/
def filesWritten (ops : List FsOp) : List String :=
  ops.filterMap (fun op =>
    match op with
    | FsOp.writeFile p _ => some p
    | _ => none)

/-- A finite environment for concrete runs: later pairs shadow nothing
(first match wins). -/
def envOf (pairs : List (String × String)) : Env := fun n =>
  (pairs.find? (fun p => p.fst == n)).map Prod.snd

/-- A finite filesystem for concrete runs: unknown paths are absent. -/
def fsOf (pairs : List (String × FileResult)) : FS := fun path =>
  match pairs.find? (fun p => p.fst == path) with
  | some p => p.snd
  | none => FileResult.fileNotFound

/-- A fixed stand-in for the external fire.compile collaborator, used to
run the embedded main on concrete inputs. -/
def sampleCompile : CompileFn := fun _ _ _ => ("GRAPH", "DIFF")

end SimKube

deriving instance DecidableEq for Except

namespace SimKube

/-! Helper lemmas about the dev-mode image loop. -/

theorem devImages_ok_length (bd : Option String) (fs : FS) :
    ∀ (apps : List App) (images : List String),
      devImages bd fs apps = Except.ok images → images.length = apps.length := by
  intro apps
  induction apps with
  | nil =>
    intro images h
    simp [devImages] at h
    simp [← h]
  | cons app rest ih =>
    intro images h
    cases hr : readImageFile bd app.id fs with
    | error e => simp [devImages, hr] at h
    | ok image =>
      cases hd : devImages bd fs rest with
      | error e => simp [devImages, hr, hd] at h
      | ok rimages =>
        simp [devImages, hr, hd] at h
        simp [← h, ih rimages hd]

theorem devImages_ok_get (bd : Option String) (fs : FS) :
    ∀ (apps : List App) (images : List String),
      devImages bd fs apps = Except.ok images →
      ∀ (i : Nat) (hi : i < apps.length) (hi' : i < images.length),
        readImageFile bd (apps.get ⟨i, hi⟩).id fs =
          Except.ok (images.get ⟨i, hi'⟩) := by
  intro apps
  induction apps with
  | nil =>
    intro images h i hi hi'
    exact absurd hi (Nat.not_lt_zero i)
  | cons app rest ih =>
    intro images h i hi hi'
    cases hr : readImageFile bd app.id fs with
    | error e => simp [devImages, hr] at h
    | ok image =>
      cases hd : devImages bd fs rest with
      | error e => simp [devImages, hr, hd] at h
      | ok rimages =>
        simp [devImages, hr, hd] at h
        subst h
        cases i with
        | zero => simpa using hr
        | succ j =>
          exact ih rimages hd j (Nat.lt_of_succ_lt_succ hi)
            (Nat.lt_of_succ_lt_succ hi')

theorem get_images_ok_length (apps : List App) (kustomize : Bool)
    (bd : Option String) (env : Env) (fs : FS) (images : List String)
    (h : get_images apps kustomize bd env fs = Except.ok images) :
    images.length = apps.length := by
  cases kustomize with
  | false => exact devImages_ok_length bd fs apps images h
  | true =>
    simp [get_images] at h
    simp [← h]

theorem get_images_ok_get (apps : List App) (kustomize : Bool)
    (bd : Option String) (env : Env) (fs : FS) (images : List String)
    (h : get_images apps kustomize bd env fs = Except.ok images)
    (i : Nat) (hi : i < apps.length) (hi' : i < images.length) :
    resolveOne kustomize bd env fs (apps.get ⟨i, hi⟩) =
      Except.ok (images.get ⟨i, hi'⟩) := by
  cases kustomize with
  | false => exact devImages_ok_get bd fs apps images h i hi hi'
  | true =>
    simp [get_images] at h
    subst h
    simp [resolveOne, List.get_eq_getElem]

/-- Leading and trailing whitespace removal on the character list, the
spec's notion of trimming a file's contents (for comparison with what
the code returns). -/
def trimmedChars (s : List Char) : List Char :=
  ((s.dropWhile Char.isWhitespace).reverse.dropWhile Char.isWhitespace).reverse

/-- The spec's trimmed contents of a string. -/
def trimmedStr (s : String) : String := String.mk (trimmedChars s.data)

/-! Claim theorems. -/

/-- C1 counterexample: with the file build/sk-tracer-image present and
readable with contents "img:latest\n" (a trailing newline), dev-mode
get_images returns the raw contents "img:latest\n", while the trimmed
contents required by the claim would be "img:latest": the code never
trims. -/
theorem get_images_not_trimmed_cex :
    get_images [App.mk "sk-tracer"] false (some "build") (envOf [])
      (fsOf [("build/sk-tracer-image", FileResult.found "img:latest\n")]) =
      Except.ok ["img:latest\n"] ∧
    trimmedStr "img:latest\n" = "img:latest" ∧
    ("img:latest\n" : String) ≠ "img:latest" := by
  refine ⟨by decide, by decide, by decide⟩

/-- C1 (amended): for every application id whose file build_dir/id-image
exists and is readable with contents c, dev-mode (non-kustomize) image
resolution in get_images returns exactly the raw contents c of that file,
with no whitespace trimming, as the image reference at that
application's position. -/
theorem get_images_found_raw (apps : List App) (bd : String) (env : Env)
    (fs : FS) (images : List String) (i : Nat) (hi : i < apps.length)
    (hi' : i < images.length) (c : String)
    (h : get_images apps false (some bd) env fs = Except.ok images)
    (hf : fs (bd ++ "/" ++ (apps.get ⟨i, hi⟩).id ++ "-image") =
      FileResult.found c) :
    images.get ⟨i, hi'⟩ = c := by
  simp only [List.get_eq_getElem] at hf
  have hg := get_images_ok_get apps false (some bd) env fs images h i hi hi'
  simp [resolveOne, readImageFile, hf, List.get_eq_getElem] at hg ⊢
  exact hg.symm

/-- C1 witness. -/
theorem get_images_found_raw_witness :
    (get_images [App.mk "sk-ctrl"] false (some "b") (envOf [])
        (fsOf [("b/sk-ctrl-image", FileResult.found "quay.io/x:y\n")]) =
      Except.ok ["quay.io/x:y\n"]) ∧
    ["quay.io/x:y\n"].get ⟨0, by decide⟩ = "quay.io/x:y\n" :=
  ⟨by decide,
    get_images_found_raw [App.mk "sk-ctrl"] "b" (envOf [])
      (fsOf [("b/sk-ctrl-image", FileResult.found "quay.io/x:y\n")])
      ["quay.io/x:y\n"] 0 (by decide) (by decide) "quay.io/x:y\n"
      (by decide) (by decide)⟩

/-- C2: for every application id whose file build_dir/id-image does not
exist, dev-mode get_images yields the literal "PLACEHOLDER" at that
application's position, and that application's resolution raises no
error (the FileNotFoundError is caught). -/
theorem get_images_placeholder_on_missing (apps : List App) (bd : String)
    (env : Env) (fs : FS) (images : List String) (i : Nat)
    (hi : i < apps.length) (hi' : i < images.length)
    (h : get_images apps false (some bd) env fs = Except.ok images)
    (hf : fs (bd ++ "/" ++ (apps.get ⟨i, hi⟩).id ++ "-image") =
      FileResult.fileNotFound) :
    images.get ⟨i, hi'⟩ = "PLACEHOLDER" ∧
    readImageFile (some bd) (apps.get ⟨i, hi⟩).id fs =
      Except.ok "PLACEHOLDER" := by
  simp only [List.get_eq_getElem] at hf
  have hg := get_images_ok_get apps false (some bd) env fs images h i hi hi'
  simp [resolveOne, readImageFile, hf, List.get_eq_getElem] at hg ⊢
  exact hg.symm

/-- C2 witness. -/
theorem get_images_placeholder_on_missing_witness :
    (get_images [App.mk "sk-tracer"] false (some "b") (envOf []) (fsOf []) =
      Except.ok ["PLACEHOLDER"]) ∧
    ["PLACEHOLDER"].get ⟨0, by decide⟩ = "PLACEHOLDER" :=
  ⟨by decide,
    (get_images_placeholder_on_missing [App.mk "sk-tracer"] "b" (envOf [])
      (fsOf []) ["PLACEHOLDER"] 0 (by decide) (by decide)
      (by decide) (by decide)).left⟩

/-- C3: in kustomize mode with APP_VERSION set to "1.2.3", the image
resolved for the app with id "sk-ctrl" is the fixed registry prefix
joined with "sk-ctrl:v1.2.3", i.e. "quay.io/appliedcomputing/sk-ctrl:v1.2.3". -/
theorem kustomize_image_version_join (bd : Option String) (env : Env)
    (fs : FS) (h : env "APP_VERSION" = some "1.2.3") :
    get_images [App.mk "sk-ctrl"] true bd env fs =
      Except.ok ["quay.io/appliedcomputing/sk-ctrl:v1.2.3"] ∧
    QUAY_IO_REG ++ "/" ++ "sk-ctrl:v1.2.3" =
      "quay.io/appliedcomputing/sk-ctrl:v1.2.3" := by
  constructor
  · simp [get_images, kustomizeImage, h, pyStrOfOpt]
    decide
  · decide

/-- C3 witness. -/
theorem kustomize_image_version_join_witness :
    (envOf [("APP_VERSION", "1.2.3")]) "APP_VERSION" = some "1.2.3" ∧
    get_images [App.mk "sk-ctrl"] true none
        (envOf [("APP_VERSION", "1.2.3")]) (fsOf []) =
      Except.ok ["quay.io/appliedcomputing/sk-ctrl:v1.2.3"] :=
  ⟨by decide,
    (kustomize_image_version_join none (envOf [("APP_VERSION", "1.2.3")])
      (fsOf []) (by decide)).left⟩

/-- C4 counterexample: in kustomize mode with APP_VERSION unset, image
resolution for "sk-ctrl" does not fail at all: it succeeds and produces
the reference "quay.io/appliedcomputing/sk-ctrl:vNone" (Python renders
the None from os.getenv into the f-string), contradicting the claim
that it fails fatally rather than producing a reference. -/
theorem kustomize_missing_version_cex :
    (envOf []) "APP_VERSION" = none ∧
    get_images [App.mk "sk-ctrl"] true none (envOf []) (fsOf []) =
      Except.ok ["quay.io/appliedcomputing/sk-ctrl:vNone"] := by
  refine ⟨by decide, by decide⟩

/-- C4 (amended): in kustomize mode with APP_VERSION unset, image
resolution does not fail; for every application it silently produces a
malformed reference whose version text is the literal "None", e.g.
"quay.io/appliedcomputing/sk-ctrl:vNone". -/
theorem kustomize_missing_version_malformed (apps : List App)
    (bd : Option String) (env : Env) (fs : FS)
    (h : env "APP_VERSION" = none) :
    get_images apps true bd env fs =
      Except.ok (apps.map (fun a => QUAY_IO_REG ++ "/" ++ a.id ++ ":v" ++ "None")) := by
  simp [get_images, kustomizeImage, h, pyStrOfOpt]

/-- C4 witness. -/
theorem kustomize_missing_version_malformed_witness :
    (envOf []) "APP_VERSION" = none ∧
    get_images [App.mk "sk-ctrl"] true none (envOf []) (fsOf []) =
      Except.ok ([App.mk "sk-ctrl"].map
        (fun a => QUAY_IO_REG ++ "/" ++ a.id ++ ":v" ++ "None")) :=
  ⟨by decide,
    kustomize_missing_version_malformed [App.mk "sk-ctrl"] none (envOf [])
      (fsOf []) (by decide)⟩

/-- C5 counterexample: a registry holding two specs that both declare
the id "sk-ctrl" does not fail: the handoff of src/k8s/main.py lines
99-103 resolves both and passes both duplicate specs to the assembly
library, producing no duplicate-identifier error. -/
theorem duplicate_ids_not_rejected_cex :
    registryHandoff [App.mk "sk-ctrl", App.mk "sk-ctrl"] true none
        (envOf [("APP_VERSION", "1")]) (fsOf []) =
      Except.ok
        [(App.mk "sk-ctrl", "quay.io/appliedcomputing/sk-ctrl:v1"),
         (App.mk "sk-ctrl", "quay.io/appliedcomputing/sk-ctrl:v1")] := by
  decide

/-- C5 (amended): the code performs no duplicate-identifier validation
at all: the fixed registry [SkTracer, SkCtrl] happens to have distinct
ids, and a registry containing duplicate ids is resolved and handed to
the assembly library without any error being raised. -/
theorem no_duplicate_id_check (apps : List App) (bd : Option String)
    (env : Env) (fs : FS) :
    (registry.map App.id).Nodup ∧
    ∃ pairs, registryHandoff apps true bd env fs = Except.ok pairs ∧
      pairs.map Prod.fst = apps := by
  refine ⟨by decide, apps.zip (apps.map (kustomizeImage env)), ?_, ?_⟩
  · simp [registryHandoff, get_images, Except.map]
  · exact List.map_fst_zip _ _ (by simp)

/-- C6 counterexample: the controller container of src/k8s/sk_ctrl.py is
built identically in every mode, with the DEBUG capability attached
unconditionally, so a kustomize-mode run still ships a container
carrying the elevated debug capability. -/
theorem kustomize_controller_debug_cex :
    skControllerContainer "img" ∈ builtContainers true "timg" "img" ∧
    Capability.debug ∈ (skControllerContainer "img").securityCapabilities := by
  refine ⟨by decide, by decide⟩

/-- C6 (amended): every container built in dev (non-kustomize) mode has
the debug capability; in kustomize mode the SkTracer container does not
have it, but the controller container (SKController, which attaches the
capability unconditionally) still does. -/
theorem debug_capability_by_mode (ti ci : String) :
    (∀ c ∈ builtContainers false ti ci,
      Capability.debug ∈ c.securityCapabilities) ∧
    builtContainers true ti ci =
      [skTracerContainer ti false, skControllerContainer ci] ∧
    (skTracerContainer ti false).securityCapabilities = [] ∧
    (skControllerContainer ci).securityCapabilities = [Capability.debug] := by
  refine ⟨?_, rfl, rfl, rfl⟩
  intro c hc
  simp [builtContainers] at hc
  rcases hc with h | h <;> subst h <;>
    simp [skTracerContainer, skControllerContainer]

/-- C7: a dev-mode run that completes writes exactly two artifacts, the
dependency diagram file and the manifest-diff file; a kustomize-mode run
creates exactly the three overlay directories base, prod and sim, and
writes a kustomization.yml listing inside each of them. -/
theorem run_outputs_by_mode (fc : CompileFn) (env : Env) (fs : FS)
    (ops kops : List FsOp)
    (hdev : main_run fc false env fs = Except.ok ops)
    (hkust : main_run fc true env fs = Except.ok kops) :
    (∃ g d, ops =
      [FsOp.writeFile (pyStrOfOpt (env "BUILD_DIR") ++ "/" ++ DAG_FILENAME) g,
       FsOp.writeFile (pyStrOfOpt (env "BUILD_DIR") ++ "/" ++ DIFF_FILENAME) d]) ∧
    dirsCreated kops =
      [pyStrOfOpt (env "BUILD_DIR") ++ "/base",
       pyStrOfOpt (env "BUILD_DIR") ++ "/prod",
       pyStrOfOpt (env "BUILD_DIR") ++ "/sim"] ∧
    ∀ d ∈ dirsCreated kops,
      (d ++ "/kustomization.yml") ∈ filesWritten kops := by
  have hk : kops = write_kustomize_files (pyStrOfOpt (env "BUILD_DIR")) := by
    simp [main_run, get_images] at hkust
    exact hkust.symm
  subst hk
  refine ⟨?_, ?_, ?_⟩
  · cases him : get_images registry false (env "BUILD_DIR") env fs with
    | error e => simp [main_run, him] at hdev
    | ok images =>
      simp [main_run, him] at hdev
      exact ⟨_, _, hdev.symm⟩
  · simp [write_kustomize_files, dirsCreated]
  · intro d hd
    simp [write_kustomize_files, dirsCreated] at hd
    rcases hd with h | h | h <;> subst h <;>
      simp [write_kustomize_files, filesWritten, String.append_assoc]

/-- C7 witness. -/
theorem run_outputs_by_mode_witness :
    main_run sampleCompile false (envOf [("BUILD_DIR", "build")]) (fsOf []) =
      Except.ok [FsOp.writeFile "build/dag.mermaid" "GRAPH",
                 FsOp.writeFile "build/k8s.df" "DIFF"] ∧
    dirsCreated (write_kustomize_files "build") =
      ["build/base", "build/prod", "build/sim"] :=
  ⟨by decide,
    by
      have h := run_outputs_by_mode sampleCompile
        (envOf [("BUILD_DIR", "build")]) (fsOf [])
        [FsOp.writeFile "build/dag.mermaid" "GRAPH",
         FsOp.writeFile "build/k8s.df" "DIFF"]
        (write_kustomize_files "build") (by decide) (by decide)
      exact h.right.left.trans (by decide)⟩

/-- C8: a dev-mode read of build_dir/id-image that fails with an OSError
other than file-not-found (for example permission denied) propagates
verbatim as a fatal error of the whole get_images call, and is never
replaced by the "PLACEHOLDER" default; moreover, whenever the file is
not reported missing, any successfully returned image is exactly the
file's contents, never a substituted default. -/
theorem io_error_fatal (appId bd : String) (env : Env) (fs : FS) (m : String)
    (h : fs (bd ++ "/" ++ appId ++ "-image") = FileResult.ioFailure m) :
    readImageFile (some bd) appId fs = Except.error (PyErr.osFailure m) ∧
    get_images [App.mk appId] false (some bd) env fs =
      Except.error (PyErr.osFailure m) ∧
    (∀ c : String, readImageFile (some bd) appId fs ≠ Except.ok c) ∧
    ∀ (gs : FS) (c : String),
      gs (bd ++ "/" ++ appId ++ "-image") ≠ FileResult.fileNotFound →
      readImageFile (some bd) appId gs = Except.ok c →
      gs (bd ++ "/" ++ appId ++ "-image") = FileResult.found c := by
  have hr : readImageFile (some bd) appId fs =
      Except.error (PyErr.osFailure m) := by
    simp [readImageFile, h]
  refine ⟨hr, ?_, ?_, ?_⟩
  · simp [get_images, devImages, hr]
  · intro c hc
    rw [hr] at hc
    exact Except.noConfusion hc
  · intro gs c hmiss hok
    cases hgs : gs (bd ++ "/" ++ appId ++ "-image") with
    | found c2 =>
      simp [readImageFile, hgs] at hok
      simp [hok]
    | fileNotFound => exact absurd hgs hmiss
    | ioFailure m2 => simp [readImageFile, hgs] at hok

/-- C8 witness. -/
theorem io_error_fatal_witness :
    fsOf [("b/sk-ctrl-image", FileResult.ioFailure "permission denied")]
        ("b" ++ "/" ++ "sk-ctrl" ++ "-image") =
      FileResult.ioFailure "permission denied" ∧
    get_images [App.mk "sk-ctrl"] false (some "b") (envOf [])
        (fsOf [("b/sk-ctrl-image", FileResult.ioFailure "permission denied")]) =
      Except.error (PyErr.osFailure "permission denied") :=
  ⟨by decide,
    (io_error_fatal "sk-ctrl" "b" (envOf [])
      (fsOf [("b/sk-ctrl-image", FileResult.ioFailure "permission denied")])
      "permission denied" (by decide)).right.left⟩

/-- C9: the run is deterministic in its inputs: two runs of main with
the same command-line flag, the same environment and the same
filesystem state produce identical output operations, byte for byte. -/
theorem run_deterministic (fc : CompileFn) (kustomize : Bool)
    (env1 env2 : Env) (fs1 fs2 : FS)
    (henv : ∀ v, env1 v = env2 v) (hfs : ∀ p, fs1 p = fs2 p) :
    main_run fc kustomize env1 fs1 = main_run fc kustomize env2 fs2 := by
  have he : env1 = env2 := funext henv
  have hf : fs1 = fs2 := funext hfs
  rw [he, hf]

/-- C9 witness. -/
theorem run_deterministic_witness :
    main_run sampleCompile true (envOf [("BUILD_DIR", "build")]) (fsOf []) =
      main_run sampleCompile true (envOf [("BUILD_DIR", "build")]) (fsOf []) :=
  run_deterministic sampleCompile true (envOf [("BUILD_DIR", "build")])
    (envOf [("BUILD_DIR", "build")]) (fsOf []) (fsOf [])
    (fun _ => rfl) (fun _ => rfl)

/-- C10: whenever get_images returns, it returns one image reference per
input application, in the same order: the list has the input's length
and the image at position i is exactly the resolution of the
application at position i, for either mode. -/
theorem get_images_positional (apps : List App) (kustomize : Bool)
    (bd : Option String) (env : Env) (fs : FS) (images : List String)
    (h : get_images apps kustomize bd env fs = Except.ok images) :
    images.length = apps.length ∧
    ∀ (i : Nat) (hi : i < apps.length) (hi' : i < images.length),
      resolveOne kustomize bd env fs (apps.get ⟨i, hi⟩) =
        Except.ok (images.get ⟨i, hi'⟩) :=
  ⟨get_images_ok_length apps kustomize bd env fs images h,
   fun i hi hi' => get_images_ok_get apps kustomize bd env fs images h i hi hi'⟩

/-- C10 witness. -/
theorem get_images_positional_witness :
    get_images [App.mk "sk-tracer", App.mk "sk-ctrl"] false (some "b")
        (envOf []) (fsOf []) = Except.ok ["PLACEHOLDER", "PLACEHOLDER"] ∧
    (["PLACEHOLDER", "PLACEHOLDER"] : List String).length =
      ([App.mk "sk-tracer", App.mk "sk-ctrl"] : List App).length :=
  ⟨by decide,
    (get_images_positional [App.mk "sk-tracer", App.mk "sk-ctrl"] false
      (some "b") (envOf []) (fsOf []) ["PLACEHOLDER", "PLACEHOLDER"]
      (by decide)).left⟩

end SimKube
